import Mathlib

set_option autoImplicit false

/-!
Verification of the packet-decoding core of the f1-ps-telemetry repository.

The embedding models the ctypes-based layout declarations of
src/f1_ps_telemetry/packets.py (the F1 22 generation) and the UDPUnpacker of
src/f1_ps_telemetry/unpack_udp.py.  A byte buffer is a `List Nat` whose
entries are below 256 (Python bytes).  Every structure in the source derives
from PackedLittleEndianStructure (`_pack_ = 1`), so field offsets are the sums
of the preceding field widths and all scalars are little-endian.  A decoded
scalar field is modelled as its raw little-endian unsigned value; the numeric
reinterpretation ctypes applies on top of the bit pattern (two's-complement
for signed ints, IEEE-754 for floats) is a bijection on the w-byte pattern
and is not modelled.  A ctypes union value is its raw memory, so a decoded
union field is modelled as the raw byte slice.
-/

namespace F1Telemetry

/-- The ctypes scalar kinds that occur in packets.py, with their byte widths. -/
inductive Scalar where
  | c_uint8
  | c_int8
  | c_uint16
  | c_int16
  | c_uint32
  | c_uint64
  | c_float
  | c_double
  | c_char
  deriving DecidableEq, Repr

/-- sizeof each ctypes scalar. -/
def Scalar.width : Scalar → Nat
  | .c_uint8 => 1
  | .c_int8 => 1
  | .c_uint16 => 2
  | .c_int16 => 2
  | .c_uint32 => 4
  | .c_uint64 => 8
  | .c_float => 4
  | .c_double => 8
  | .c_char => 1

/-- A packed-little-endian layout, as declared by a `_fields_` list in
packets.py.  A structure is a telescope of named fields (`field`/`nilStruct`),
an array is `arr`, and a ctypes union is `raw w` (its value is raw memory of
width `w`; `w` is computed from the member layouts where the union is
declared). -/
inductive FType where
  | prim (s : Scalar)
  | raw (w : Nat)
  | arr (t : FType) (n : Nat)
  | field (name : String) (t : FType) (rest : FType)
  | nilStruct
  deriving DecidableEq, Repr

/-- Build a structure layout from a `_fields_`-style list. -/
def mkStruct : List (String × FType) → FType
  | [] => .nilStruct
  | (nm, t) :: rest => .field nm t (mkStruct rest)

/-- ctypes.sizeof for a packed layout: widths for scalars, `n` copies for an
array, the sum of the field sizes for a structure (no padding, `_pack_ = 1`),
and the declared width for a union. -/
def FType.byteSize : FType → Nat
  | .prim s => s.width
  | .raw w => w
  | .arr t n => n * t.byteSize
  | .field _ t rest => t.byteSize + rest.byteSize
  | .nilStruct => 0

/-- A decoded record: a scalar carries its width and raw little-endian value,
a union carries its raw bytes, and arrays/structures are telescopes of
component values. -/
inductive FValue where
  | prim (w v : Nat)
  | raw (bs : List Nat)
  | nil
  | cons (hd tl : FValue)
  deriving DecidableEq, Repr

/-- Little-endian interpretation of a byte list as an unsigned integer. -/
def leVal : List Nat → Nat
  | [] => 0
  | b :: rest => b + 256 * leVal rest

/-- The `w`-byte little-endian representation of `v` (with `v < 256 ^ w`). -/
def leBytes : Nat → Nat → List Nat
  | 0, _ => []
  | w + 1, v => v % 256 :: leBytes w (v / 256)

/-- Decode `n` consecutive array elements, each of byte width `step`, with
the element decoder `f`. -/
def decodeArrAux (f : List Nat → FValue) (step : Nat) : Nat → List Nat → FValue
  | 0, _ => .nil
  | n + 1, bs => .cons (f bs) (decodeArrAux f step n (bs.drop step))

/-- Decode a layout from the front of a byte buffer: pure field extraction at
the fixed offsets implied by the preceding field widths (this is what
`from_buffer_copy` does for a packed little-endian ctypes structure). -/
def decodeFrom : FType → List Nat → FValue
  | .prim s, bs => .prim s.width (leVal (bs.take s.width))
  | .raw w, bs => .raw (bs.take w)
  | .arr t n, bs => decodeArrAux (decodeFrom t) t.byteSize n bs
  | .field _ t rest, bs =>
      .cons (decodeFrom t bs) (decodeFrom rest (bs.drop t.byteSize))
  | .nilStruct, _ => .nil

/-- Modelled from the spec: the repository is decode-only, and the spec asks
for the round-trip property "where an encoder is added for testing"; this is
that encoder, producing the exact-byte-size little-endian representation of a
record (scalars in little-endian order, fields and array elements
concatenated in declaration order, union values as their raw memory). -/
def encode : FValue → List Nat
  | .prim w v => leBytes w v
  | .raw bs => bs
  | .nil => []
  | .cons hd tl => encode hd ++ encode tl

/-- `n` consecutive array elements, each well-formed for the element
predicate `f`. -/
def fitsArrAux (f : FValue → Bool) : Nat → FValue → Bool
  | 0, .nil => true
  | n + 1, .cons hd tl => f hd && fitsArrAux f n tl
  | _, _ => false

/-- `fitsB t v` holds when `v` is a well-formed record of layout `t`:
scalar values fit their width, union bytes are bytes of the declared width,
and telescopes follow the layout. -/
def fitsB : FType → FValue → Bool
  | .prim s, .prim w v => w = s.width && v < 256 ^ s.width
  | .prim _, _ => false
  | .raw w, .raw bs => bs.length = w && bs.all (· < 256)
  | .raw _, _ => false
  | .arr t n, v => fitsArrAux (fitsB t) n v
  | .field _ t rest, .cons hd tl => fitsB t hd && fitsB rest tl
  | .field _ _ _, _ => false
  | .nilStruct, .nil => true
  | .nilStruct, _ => false

/-- Offset and width of a named top-level field inside a structure layout
(offsets are sums of the preceding field widths; `_pack_ = 1`). -/
def fieldSpan : FType → String → Option (Nat × Nat)
  | .field nm t rest, name =>
      if name = nm then some (0, t.byteSize)
      else (fieldSpan rest name).map (fun p => (t.byteSize + p.1, p.2))
  | _, _ => none

/-- Raw little-endian value of the named scalar field of a structure layout,
read from a byte buffer holding that structure at offset 0. -/
def readFieldValue (t : FType) (packet : List Nat) (name : String) : Nat :=
  match fieldSpan t name with
  | some (off, w) => leVal ((packet.drop off).take w)
  | none => 0

/-- The component value of the named field of a decoded structure value. -/
def getField : FType → FValue → String → Option FValue
  | .field nm _ rest, .cons hd tl, name =>
      if name = nm then some hd else getField rest tl name
  | _, _, _ => none

/-- ctypes.sizeof of a union: the largest member size. -/
def unionSize (members : List FType) : Nat :=
  members.foldr (fun t m => max t.byteSize m) 0

def c_uint8 : FType := .prim .c_uint8
def c_int8 : FType := .prim .c_int8
def c_uint16 : FType := .prim .c_uint16
def c_int16 : FType := .prim .c_int16
def c_uint32 : FType := .prim .c_uint32
def c_uint64 : FType := .prim .c_uint64
def c_float : FType := .prim .c_float
def c_double : FType := .prim .c_double
def c_char : FType := .prim .c_char

/-- The header for each of the UDP telemetry packets (packets.py, class
PacketHeader). -/
def PacketHeader : FType := mkStruct [
  ("packetFormat", c_uint16),
  ("gameMajorVersion", c_uint8),
  ("gameMinorVersion", c_uint8),
  ("packetVersion", c_uint8),
  ("packetId", c_uint8),
  ("sessionUID", c_uint64),
  ("sessionTime", c_float),
  ("frameIdentifier", c_uint32),
  ("playerCarIndex", c_uint8),
  ("secondaryPlayerCarIndex", c_uint8)]

/-- packets.py, class CarMotionData_V1. -/
def CarMotionData_V1 : FType := mkStruct [
  ("worldPositionX", c_float),
  ("worldPositionY", c_float),
  ("worldPositionZ", c_float),
  ("worldVelocityX", c_float),
  ("worldVelocityY", c_float),
  ("worldVelocityZ", c_float),
  ("worldForwardDirX", c_int16),
  ("worldForwardDirY", c_int16),
  ("worldForwardDirZ", c_int16),
  ("worldRightDirX", c_int16),
  ("worldRightDirY", c_int16),
  ("worldRightDirZ", c_int16),
  ("gForceLateral", c_float),
  ("gForceLongitudinal", c_float),
  ("gForceVertical", c_float),
  ("yaw", c_float),
  ("pitch", c_float),
  ("roll", c_float)]

/-- packets.py, class PacketMotionData_V1 (packet id 0). -/
def PacketMotionData_V1 : FType := mkStruct [
  ("header", PacketHeader),
  ("carMotionData", .arr CarMotionData_V1 22),
  ("suspensionPosition", .arr c_float 4),
  ("suspensionVelocity", .arr c_float 4),
  ("suspensionAcceleration", .arr c_float 4),
  ("wheelSpeed", .arr c_float 4),
  ("wheelSlip", .arr c_float 4),
  ("localVelocityX", c_float),
  ("localVelocityY", c_float),
  ("localVelocityZ", c_float),
  ("angularVelocityX", c_float),
  ("angularVelocityY", c_float),
  ("angularVelocityZ", c_float),
  ("angularAccelerationX", c_float),
  ("angularAccelerationY", c_float),
  ("angularAccelerationZ", c_float),
  ("frontWheelsAngle", c_float)]

/-- packets.py, class MarshalZone_V1. -/
def MarshalZone_V1 : FType := mkStruct [
  ("zoneStart", c_float),
  ("zoneFlag", c_int8)]

/-- packets.py, class WeatherForecastSample_V1. -/
def WeatherForecastSample_V1 : FType := mkStruct [
  ("sessionType", c_uint8),
  ("timeOffset", c_uint8),
  ("weather", c_uint8),
  ("trackTemperature", c_int8),
  ("trackTemperatureChange", c_int8),
  ("airTemperature", c_int8),
  ("airTemperatureChange", c_int8),
  ("rainPercentage", c_uint8)]

/-- packets.py, class PacketSessionData_V1 (packet id 1). -/
def PacketSessionData_V1 : FType := mkStruct [
  ("header", PacketHeader),
  ("weather", c_uint8),
  ("trackTemperature", c_int8),
  ("airTemperature", c_int8),
  ("totalLaps", c_uint8),
  ("trackLength", c_uint16),
  ("sessionType", c_uint8),
  ("trackId", c_int8),
  ("formula", c_uint8),
  ("sessionTimeLeft", c_uint16),
  ("sessionDuration", c_uint16),
  ("pitSpeedLimit", c_uint8),
  ("gamePaused", c_uint8),
  ("isSpectating", c_uint8),
  ("spectatorCarIndex", c_uint8),
  ("sliProNativeSupport", c_uint8),
  ("numMarshalZones", c_uint8),
  ("marshalZones", .arr MarshalZone_V1 21),
  ("safetyCarStatus", c_uint8),
  ("networkGame", c_uint8),
  ("numWeatherForecastSamples", c_uint8),
  ("weatherForecastSamples", .arr WeatherForecastSample_V1 56),
  ("forecastAccuracy", c_uint8),
  ("aiDifficulty", c_uint8),
  ("seasonLinkIdentifier", c_uint32),
  ("weekendLinkIdentifier", c_uint32),
  ("sessionLinkIdentifier", c_uint32),
  ("pitStopWindowIdealLap", c_uint8),
  ("pitStopWindowLatestLap", c_uint8),
  ("pitStopRejoinPosition", c_uint8),
  ("steeringAssist", c_uint8),
  ("brakingAssist", c_uint8),
  ("gearboxAssist", c_uint8),
  ("pitAssist", c_uint8),
  ("pitReleaseAssist", c_uint8),
  ("ERSAssist", c_uint8),
  ("DRSAssist", c_uint8),
  ("dynamicRacingLine", c_uint8),
  ("dynamicRacingLineType", c_uint8),
  ("gameMode", c_uint8),
  ("ruleSet", c_uint8),
  ("timeOfDay", c_uint32),
  ("sessionLength", c_uint8)]

/-- packets.py, class LapData_V1. -/
def LapData_V1 : FType := mkStruct [
  ("lastLapTimeInMS", c_uint32),
  ("currentLapTimeInMS", c_uint32),
  ("sector1TimeInMS", c_uint16),
  ("sector2TimeInMS", c_uint16),
  ("lapDistance", c_float),
  ("totalDistance", c_float),
  ("safetyCarDelta", c_float),
  ("carPosition", c_uint8),
  ("currentLapNum", c_uint8),
  ("pitStatus", c_uint8),
  ("numPitStops", c_uint8),
  ("sector", c_uint8),
  ("currentLapInvalid", c_uint8),
  ("penalties", c_uint8),
  ("warnings", c_uint8),
  ("numUnservedDriveThroughPens", c_uint8),
  ("numUnservedStopGoPens", c_uint8),
  ("gridPosition", c_uint8),
  ("driverStatus", c_uint8),
  ("resultStatus", c_uint8),
  ("pitLaneTimerActive", c_uint8),
  ("pitLaneTimeInLaneInMS", c_uint16),
  ("pitStopTimerInMS", c_uint16),
  ("pitStopShouldServePen", c_uint8)]

/-- packets.py, class PacketLapData_V1 (packet id 2). -/
def PacketLapData_V1 : FType := mkStruct [
  ("header", PacketHeader),
  ("lapData", .arr LapData_V1 22),
  ("timeTrialPBCarIdx", c_uint8),
  ("timeTrialRivalCarIdx", c_uint8)]

/-- packets.py, class FastestLap_V1. -/
def FastestLap_V1 : FType := mkStruct [
  ("vehicleIdx", c_uint8),
  ("lapTime", c_float)]

/-- packets.py, class Retirement_V1. -/
def Retirement_V1 : FType := mkStruct [("vehicleIdx", c_uint8)]

/-- packets.py, class TeamMateInPits_V1. -/
def TeamMateInPits_V1 : FType := mkStruct [("vehicleIdx", c_uint8)]

/-- packets.py, class RaceWinner_V1. -/
def RaceWinner_V1 : FType := mkStruct [("vehicleIdx", c_uint8)]

/-- packets.py, class Penalty_V1. -/
def Penalty_V1 : FType := mkStruct [
  ("penaltyType", c_uint8),
  ("infringementType", c_uint8),
  ("vehicleIdx", c_uint8),
  ("otherVehicleIdx", c_uint8),
  ("time", c_uint8),
  ("lapNum", c_uint8),
  ("placesGained", c_uint8)]

/-- packets.py, class SpeedTrap_V1. -/
def SpeedTrap_V1 : FType := mkStruct [
  ("vehicleIdx", c_uint8),
  ("speed", c_float),
  ("isOverallFastestInSession", c_uint8),
  ("isDriverFastestInSession", c_uint8),
  ("fastestVehicleIdxInSession", c_uint8),
  ("fastestSpeedInSession", c_float)]

/-- packets.py, class StartLights_V1. -/
def StartLights_V1 : FType := mkStruct [("numLights", c_uint8)]

/-- packets.py, class DriveThroughPenaltyServed_V1. -/
def DriveThroughPenaltyServed_V1 : FType := mkStruct [("vehicleIdx", c_uint8)]

/-- packets.py, class StopGoPenaltyServed_V1. -/
def StopGoPenaltyServed_V1 : FType := mkStruct [("vehicleIdx", c_uint8)]

/-- packets.py, class Flashback_V1. -/
def Flashback_V1 : FType := mkStruct [
  ("flashbackFrameIdentifier", c_uint32),
  ("flashbackSessionTime", c_float)]

/-- packets.py, class Buttons_V1. -/
def Buttons_V1 : FType := mkStruct [("buttonStatus", c_uint32)]

/-- packets.py, class EventDataDetails_V1: a ctypes.Union of the
mutually-exclusive event detail shapes, overlaid at the same offset; its size
is the largest member size and its decoded value is raw memory. -/
def EventDataDetails_V1 : FType := .raw (unionSize [
  FastestLap_V1,
  Retirement_V1,
  TeamMateInPits_V1,
  RaceWinner_V1,
  Penalty_V1,
  SpeedTrap_V1,
  StartLights_V1,
  DriveThroughPenaltyServed_V1,
  StopGoPenaltyServed_V1,
  Flashback_V1,
  Buttons_V1])

/-- packets.py, class PacketEventData_V1 (packet id 3). -/
def PacketEventData_V1 : FType := mkStruct [
  ("header", PacketHeader),
  ("eventStringCode", .arr c_uint8 4),
  ("eventDetails", EventDataDetails_V1)]

/-- packets.py, class ParticipantData_V1. -/
def ParticipantData_V1 : FType := mkStruct [
  ("aiControlled", c_uint8),
  ("driverId", c_uint8),
  ("networkId", c_uint8),
  ("teamId", c_uint8),
  ("myTeam", c_uint8),
  ("raceNumber", c_uint8),
  ("nationality", c_uint8),
  ("name", .arr c_char 48),
  ("yourTelemetry", c_uint8)]

/-- packets.py, class PacketParticipantsData_V1 (packet id 4). -/
def PacketParticipantsData_V1 : FType := mkStruct [
  ("header", PacketHeader),
  ("numActiveCars", c_uint8),
  ("participants", .arr ParticipantData_V1 22)]

/-- packets.py, class CarSetupData_V1. -/
def CarSetupData_V1 : FType := mkStruct [
  ("frontWing", c_uint8),
  ("rearWing", c_uint8),
  ("onThrottle", c_uint8),
  ("offThrottle", c_uint8),
  ("frontCamber", c_float),
  ("rearCamber", c_float),
  ("frontToe", c_float),
  ("rearToe", c_float),
  ("frontSuspension", c_uint8),
  ("rearSuspension", c_uint8),
  ("frontAntiRollBar", c_uint8),
  ("rearAntiRollBar", c_uint8),
  ("frontSuspensionHeight", c_uint8),
  ("rearSuspensionHeight", c_uint8),
  ("brakePressure", c_uint8),
  ("brakeBias", c_uint8),
  ("rearLeftTyrePressure", c_float),
  ("rearRightTyrePressure", c_float),
  ("frontLeftTyrePressure", c_float),
  ("frontRightTyrePressure", c_float),
  ("ballast", c_uint8),
  ("fuelLoad", c_float)]

/-- packets.py, class PacketCarSetupData_V1 (packet id 5). -/
def PacketCarSetupData_V1 : FType := mkStruct [
  ("header", PacketHeader),
  ("carSetups", .arr CarSetupData_V1 22)]

/-- packets.py, class CarTelemetryData_V1. -/
def CarTelemetryData_V1 : FType := mkStruct [
  ("speed", c_uint16),
  ("throttle", c_float),
  ("steer", c_float),
  ("brake", c_float),
  ("clutch", c_uint8),
  ("gear", c_int8),
  ("engineRPM", c_uint16),
  ("drs", c_uint8),
  ("revLightsPercent", c_uint8),
  ("revLightsBitValue", c_uint16),
  ("brakesTemperature", .arr c_uint16 4),
  ("tyresSurfaceTemperature", .arr c_uint8 4),
  ("tyresInnerTemperature", .arr c_uint8 4),
  ("engineTemperature", c_uint16),
  ("tyresPressure", .arr c_float 4),
  ("surfaceType", .arr c_uint8 4)]

/-- packets.py, class PacketCarTelemetryData_V1 (packet id 6). -/
def PacketCarTelemetryData_V1 : FType := mkStruct [
  ("header", PacketHeader),
  ("carTelemetryData", .arr CarTelemetryData_V1 22),
  ("mfdPanelIndex", c_uint8),
  ("mfdPanelIndexSecondaryPlayer", c_uint8),
  ("suggestedGear", c_int8)]

/-- packets.py, class CarStatusData_V1. -/
def CarStatusData_V1 : FType := mkStruct [
  ("tractionControl", c_uint8),
  ("antiLockBrakes", c_uint8),
  ("fuelMix", c_uint8),
  ("frontBrakeBias", c_uint8),
  ("pitLimiterStatus", c_uint8),
  ("fuelInTank", c_float),
  ("fuelCapacity", c_float),
  ("fuelRemainingLaps", c_float),
  ("maxRPM", c_uint16),
  ("idleRPM", c_uint16),
  ("maxGears", c_uint8),
  ("drsAllowed", c_uint8),
  ("drsActivationDistance", c_uint16),
  ("actualTyreCompound", c_uint8),
  ("visualTyreCompound", c_uint8),
  ("tyresAgeLaps", c_uint8),
  ("vehicleFiaFlags", c_int8),
  ("ersStoreEnergy", c_float),
  ("ersDeployMode", c_uint8),
  ("ersHarvestedThisLapMGUK", c_float),
  ("ersHarvestedThisLapMGUH", c_float),
  ("ersDeployedThisLap", c_float),
  ("networkPaused", c_uint8)]

/-- packets.py, class PacketCarStatusData_V1 (packet id 7). -/
def PacketCarStatusData_V1 : FType := mkStruct [
  ("header", PacketHeader),
  ("carStatusData", .arr CarStatusData_V1 22)]

/-- packets.py, class FinalClassificationData_V1. -/
def FinalClassificationData_V1 : FType := mkStruct [
  ("position", c_uint8),
  ("numLaps", c_uint8),
  ("gridPosition", c_uint8),
  ("points", c_uint8),
  ("numPitStops", c_uint8),
  ("resultStatus", c_uint8),
  ("bestLapTimeInMS", c_uint32),
  ("totalRaceTime", c_double),
  ("penaltiesTime", c_uint8),
  ("numPenalties", c_uint8),
  ("numTyreStints", c_uint8),
  ("tyreStintsActual", .arr c_uint8 8),
  ("tyreStintsVisual", .arr c_uint8 8),
  ("tyreStintsEndLaps", .arr c_uint8 8)]

/-- packets.py, class PacketFinalClassificationData_V1 (packet id 8). -/
def PacketFinalClassificationData_V1 : FType := mkStruct [
  ("header", PacketHeader),
  ("numCars", c_uint8),
  ("classificationData", .arr FinalClassificationData_V1 22)]

/-- packets.py, class LobbyInfoData_V1. -/
def LobbyInfoData_V1 : FType := mkStruct [
  ("aiControlled", c_uint8),
  ("teamId", c_uint8),
  ("nationality", c_uint8),
  ("name", .arr c_char 48),
  ("carNumber", c_uint8),
  ("readyStatus", c_uint8)]

/-- packets.py, class PacketLobbyInfoData_V1 (packet id 9). -/
def PacketLobbyInfoData_V1 : FType := mkStruct [
  ("header", PacketHeader),
  ("numPlayers", c_uint8),
  ("lobbyPlayers", .arr LobbyInfoData_V1 22)]

/-- packets.py, class CarDamageData_V1. -/
def CarDamageData_V1 : FType := mkStruct [
  ("tyresWear", .arr c_float 4),
  ("tyresDamage", .arr c_uint8 4),
  ("brakesDamage", .arr c_uint8 4),
  ("frontLeftWingDamage", c_uint8),
  ("frontRightWingDamage", c_uint8),
  ("rearWingDamage", c_uint8),
  ("floorDamage", c_uint8),
  ("diffuserDamage", c_uint8),
  ("sidepodDamage", c_uint8),
  ("drsFault", c_uint8),
  ("ersFault", c_uint8),
  ("gearBoxDamage", c_uint8),
  ("engineDamage", c_uint8),
  ("engineMGUHWear", c_uint8),
  ("engineESWear", c_uint8),
  ("engineCEWear", c_uint8),
  ("engineICEWear", c_uint8),
  ("engineMGUKWear", c_uint8),
  ("engineTCWear", c_uint8),
  ("engineBlown", c_uint8),
  ("engineSeized", c_uint8)]

/-- packets.py, class PacketCarDamageData_V1 (packet id 10). -/
def PacketCarDamageData_V1 : FType := mkStruct [
  ("header", PacketHeader),
  ("carDamageData", .arr CarDamageData_V1 22)]

/-- packets.py, class LapHistoryData_V1. -/
def LapHistoryData_V1 : FType := mkStruct [
  ("lapTimeInMS", c_uint32),
  ("sector1TimeInMS", c_uint16),
  ("sector2TimeInMS", c_uint16),
  ("sector3TimeInMS", c_uint16),
  ("lapValidBitFlags", c_uint8)]

/-- packets.py, class TyreStintHistoryData_V1. -/
def TyreStintHistoryData_V1 : FType := mkStruct [
  ("endLap", c_uint8),
  ("tyreActualCompound", c_uint8),
  ("tyreVisualCompound", c_uint8)]

/-- packets.py, class PacketSessionHistoryData_V1 (packet id 11). -/
def PacketSessionHistoryData_V1 : FType := mkStruct [
  ("header", PacketHeader),
  ("carIdx", c_uint8),
  ("numLaps", c_uint8),
  ("numTyreStints", c_uint8),
  ("bestLapTimeLapNum", c_uint8),
  ("bestSector1LapNum", c_uint8),
  ("bestSector2LapNum", c_uint8),
  ("bestSector3LapNum", c_uint8),
  ("lapHistoryData", .arr LapHistoryData_V1 100),
  ("tyreStintsHistoryData", .arr TyreStintHistoryData_V1 8)]

/-- A dispatch key: (packetFormat, packetVersion, packetId). -/
abbrev HeaderKey := Nat × Nat × Nat

/-- Map from (packetFormat, packetVersion, packetId) to a specific packet
type (packets.py, HeaderFieldsToPacketType). -/
def HeaderFieldsToPacketType : List (HeaderKey × FType) := [
  ((2022, 1, 0), PacketMotionData_V1),
  ((2022, 1, 1), PacketSessionData_V1),
  ((2022, 1, 2), PacketLapData_V1),
  ((2022, 1, 3), PacketEventData_V1),
  ((2022, 1, 4), PacketParticipantsData_V1),
  ((2022, 1, 5), PacketCarSetupData_V1),
  ((2022, 1, 6), PacketCarTelemetryData_V1),
  ((2022, 1, 7), PacketCarStatusData_V1),
  ((2022, 1, 8), PacketFinalClassificationData_V1),
  ((2022, 1, 9), PacketLobbyInfoData_V1),
  ((2022, 1, 10), PacketCarDamageData_V1),
  ((2022, 1, 11), PacketSessionHistoryData_V1)]

/-- Exact-match dictionary lookup (Python `dict[key]` guarded by
`key in dict`). -/
def lookupKey : List (HeaderKey × FType) → HeaderKey → Option FType
  | [], _ => none
  | (k, t) :: rest, key => if k = key then some t else lookupKey rest key

/-- The errors raised as UnpackError; each constructor carries the data
interpolated into the corresponding message string of the source. -/
inductive UnpackError where
  | tooShort (actual_packet_size : Nat)
  | noMatch (key : HeaderKey)
  | badSize (expected_packet_size actual_packet_size : Nat)
  deriving DecidableEq, Repr

/-- The dispatch key read from a buffer that holds at least a full
`PacketHeader`: the packetFormat, packetVersion and packetId fields of the
decoded header (offsets 0, 4 and 5; widths 2, 1 and 1). -/
def headerKey (hdr : FType) (packet : List Nat) : HeaderKey :=
  (readFieldValue hdr packet "packetFormat",
   readFieldValue hdr packet "packetVersion",
   readFieldValue hdr packet "packetId")

/-- packets.py, unpack_udp_packet: length-validate against the header size,
read the dispatch key from the header, look the key up in
HeaderFieldsToPacketType, validate the exact packet size, then decode. -/
def unpack_udp_packet (packet : List Nat) : Except UnpackError FValue :=
  let actual_packet_size := packet.length
  let header_size := PacketHeader.byteSize
  if actual_packet_size < header_size then
    .error (.tooShort actual_packet_size)
  else
    let key := headerKey PacketHeader packet
    match lookupKey HeaderFieldsToPacketType key with
    | none => .error (.noMatch key)
    | some packet_type =>
      let expected_packet_size := packet_type.byteSize
      if actual_packet_size ≠ expected_packet_size then
        .error (.badSize expected_packet_size actual_packet_size)
      else
        .ok (decodeFrom packet_type packet)

/-!
The UDPUnpacker of src/f1_ps_telemetry/unpack_udp.py.  It imports the
generation-22 and generation-23 definitions from the modules packets_22 and
packets_23, which are not part of the sources; packets.py holds the F1 22
definitions, so the generation-22 header and table are taken from it, and the
generation-23 header and dispatch table are left as parameters (every theorem
about the UDPUnpacker holds for all choices of them).
-/

/-- The construction/reconfiguration-time error: the source raises a plain
Exception asking for a udp_spec of "22" or "23". -/
inductive InitError where
  | invalidSpec (requested : String)
  deriving DecidableEq, Repr

/-- The state of a UDPUnpacker: the generation selector string together with
the header class and dispatch table it selected (attributes `_udp_spec`,
`_PacketHeader` and `_HeaderFieldsToPacketType`). -/
structure UDPUnpacker where
  _udp_spec : String
  _PacketHeader : FType
  _HeaderFieldsToPacketType : List (HeaderKey × FType)
  deriving DecidableEq, Repr

/-- unpack_udp.py, UDPUnpacker.__init__: bind the selector and, according to
it, both the header model and the dispatch table; any other selector is an
immediate construction-time error.  `PacketHeader23` and
`HeaderFieldsToPacketType_23` stand for the packets_23 definitions. -/
def UDPUnpacker.init (PacketHeader23 : FType)
    (HeaderFieldsToPacketType_23 : List (HeaderKey × FType))
    (udp_spec : String) : Except InitError UDPUnpacker :=
  if udp_spec = "22" then
    .ok ⟨udp_spec, PacketHeader, HeaderFieldsToPacketType⟩
  else if udp_spec = "23" then
    .ok ⟨udp_spec, PacketHeader23, HeaderFieldsToPacketType_23⟩
  else
    .error (.invalidSpec udp_spec)

/-- unpack_udp.py, the udp_spec property setter: validates the new selector
and assigns `self._udp_spec = new_udp_spec`.  Note that, exactly as in the
source (lines 29-34), it updates ONLY `_udp_spec`; `_PacketHeader` and
`_HeaderFieldsToPacketType` keep the values chosen at construction. -/
def UDPUnpacker.set_udp_spec (self : UDPUnpacker) (new_udp_spec : String) :
    Except InitError UDPUnpacker :=
  if new_udp_spec ≠ "22" ∧ new_udp_spec ≠ "23" then
    .error (.invalidSpec new_udp_spec)
  else
    .ok { self with _udp_spec := new_udp_spec }

/-- unpack_udp.py, UDPUnpacker.unpack_udp_packet: as the module-level
unpack_udp_packet of packets.py, but against the header model and dispatch
table held by `self`. -/
def UDPUnpacker.unpack_udp_packet (self : UDPUnpacker) (packet : List Nat) :
    Except UnpackError FValue :=
  let actual_packet_size := packet.length
  let header_size := self._PacketHeader.byteSize
  if actual_packet_size < header_size then
    .error (.tooShort actual_packet_size)
  else
    let key := headerKey self._PacketHeader packet
    match lookupKey self._HeaderFieldsToPacketType key with
    | none => .error (.noMatch key)
    | some packet_type =>
      let expected_packet_size := packet_type.byteSize
      if actual_packet_size ≠ expected_packet_size then
        .error (.badSize expected_packet_size actual_packet_size)
      else
        .ok (decodeFrom packet_type packet)

/-! Helper lemmas. -/

theorem leBytes_length (w : Nat) : ∀ v : Nat, (leBytes w v).length = w := by
  induction w with
  | zero => intro v; rfl
  | succ w ih => intro v; simp [leBytes, ih]

theorem take_append_of_length {α : Type} (l1 l2 : List α) (n : Nat)
    (h : l1.length = n) : (l1 ++ l2).take n = l1 := by
  subst h; exact List.take_left _ _

theorem drop_append_of_length {α : Type} (l1 l2 : List α) (n : Nat)
    (h : l1.length = n) : (l1 ++ l2).drop n = l2 := by
  subst h; exact List.drop_left _ _

theorem leVal_leBytes (w : Nat) : ∀ v : Nat, v < 256 ^ w →
    leVal (leBytes w v) = v := by
  induction w with
  | zero =>
      intro v hv
      simp [Nat.pow_zero, Nat.lt_one_iff] at hv
      simp [hv, leBytes, leVal]
  | succ w ih =>
      intro v hv
      have hdiv : v / 256 < 256 ^ w := by
        rw [Nat.div_lt_iff_lt_mul (by norm_num : 0 < 256)]
        calc v < 256 ^ (w + 1) := hv
        _ = 256 ^ w * 256 := by ring
      simp [leBytes, leVal, ih (v / 256) hdiv]
      omega

theorem encode_length : ∀ (v : FValue) (t : FType), fitsB t v = true →
    (encode v).length = t.byteSize := by
  intro v
  induction v with
  | prim w val =>
      intro t hf
      cases t with
      | prim s =>
          simp only [fitsB, Bool.and_eq_true, decide_eq_true_eq] at hf
          simp [encode, leBytes_length, FType.byteSize, hf.1]
      | raw w' => simp [fitsB] at hf
      | arr t' n => cases n <;> simp [fitsB, fitsArrAux] at hf
      | field nm t' rest => simp [fitsB] at hf
      | nilStruct => simp [fitsB] at hf
  | raw bs =>
      intro t hf
      cases t with
      | raw w' =>
          simp only [fitsB, Bool.and_eq_true, decide_eq_true_eq] at hf
          simpa [encode, FType.byteSize] using hf.1
      | prim s => simp [fitsB] at hf
      | arr t' n => cases n <;> simp [fitsB, fitsArrAux] at hf
      | field nm t' rest => simp [fitsB] at hf
      | nilStruct => simp [fitsB] at hf
  | nil =>
      intro t hf
      cases t with
      | arr t' n =>
          cases n with
          | zero => simp [encode, FType.byteSize]
          | succ n => simp [fitsB, fitsArrAux] at hf
      | nilStruct => simp [encode, FType.byteSize]
      | prim s => simp [fitsB] at hf
      | raw w' => simp [fitsB] at hf
      | field nm t' rest => simp [fitsB] at hf
  | cons hd tl ih_hd ih_tl =>
      intro t hf
      cases t with
      | arr t' n =>
          cases n with
          | zero => simp [fitsB, fitsArrAux] at hf
          | succ n =>
              have hf' : fitsB t' hd = true ∧ fitsB (.arr t' n) tl = true := by
                simpa [fitsB, fitsArrAux, Bool.and_eq_true] using hf
              have h2 := ih_tl (.arr t' n) hf'.2
              simp only [FType.byteSize] at h2
              simp only [encode, List.length_append, FType.byteSize,
                ih_hd t' hf'.1, h2]
              ring
      | field nm t' rest =>
          have hf' : fitsB t' hd = true ∧ fitsB rest tl = true := by
            simpa [fitsB, Bool.and_eq_true] using hf
          simp [encode, FType.byteSize, ih_hd t' hf'.1, ih_tl rest hf'.2]
      | prim s => simp [fitsB] at hf
      | raw w' => simp [fitsB] at hf
      | nilStruct => simp [fitsB] at hf

theorem decodeFrom_encode_append : ∀ (v : FValue) (t : FType),
    fitsB t v = true → ∀ extra : List Nat,
    decodeFrom t (encode v ++ extra) = v := by
  intro v
  induction v with
  | prim w val =>
      intro t hf extra
      cases t with
      | prim s =>
          simp only [fitsB, Bool.and_eq_true, decide_eq_true_eq] at hf
          obtain ⟨hw, hv⟩ := hf
          subst hw
          have htake : (leBytes s.width val ++ extra).take s.width
              = leBytes s.width val :=
            take_append_of_length _ _ _ (leBytes_length s.width val)
          simp [decodeFrom, encode, htake, leVal_leBytes s.width val hv]
      | raw w' => simp [fitsB] at hf
      | arr t' n => cases n <;> simp [fitsB, fitsArrAux] at hf
      | field nm t' rest => simp [fitsB] at hf
      | nilStruct => simp [fitsB] at hf
  | raw bs =>
      intro t hf extra
      cases t with
      | raw w' =>
          simp only [fitsB, Bool.and_eq_true, decide_eq_true_eq] at hf
          have htake : (bs ++ extra).take w' = bs :=
            take_append_of_length _ _ _ hf.1
          simp [decodeFrom, encode, htake]
      | prim s => simp [fitsB] at hf
      | arr t' n => cases n <;> simp [fitsB, fitsArrAux] at hf
      | field nm t' rest => simp [fitsB] at hf
      | nilStruct => simp [fitsB] at hf
  | nil =>
      intro t hf extra
      cases t with
      | arr t' n =>
          cases n with
          | zero => simp [decodeFrom, decodeArrAux]
          | succ n => simp [fitsB, fitsArrAux] at hf
      | nilStruct => simp [decodeFrom]
      | prim s => simp [fitsB] at hf
      | raw w' => simp [fitsB] at hf
      | field nm t' rest => simp [fitsB] at hf
  | cons hd tl ih_hd ih_tl =>
      intro t hf extra
      cases t with
      | arr t' n =>
          cases n with
          | zero => simp [fitsB, fitsArrAux] at hf
          | succ n =>
              have hf' : fitsB t' hd = true ∧ fitsB (.arr t' n) tl = true := by
                simpa [fitsB, fitsArrAux, Bool.and_eq_true] using hf
              have hdrop : ((encode hd ++ encode tl) ++ extra).drop t'.byteSize
                  = encode tl ++ extra := by
                rw [List.append_assoc]
                exact drop_append_of_length _ _ _ (encode_length hd t' hf'.1)
              have h2 := ih_tl (.arr t' n) hf'.2 extra
              simp only [decodeFrom] at h2
              simp only [decodeFrom, encode, decodeArrAux, hdrop, h2]
              rw [List.append_assoc]
              rw [ih_hd t' hf'.1 (encode tl ++ extra)]
      | field nm t' rest =>
          have hf' : fitsB t' hd = true ∧ fitsB rest tl = true := by
            simpa [fitsB, Bool.and_eq_true] using hf
          have hdrop : ((encode hd ++ encode tl) ++ extra).drop t'.byteSize
              = encode tl ++ extra := by
            rw [List.append_assoc]
            exact drop_append_of_length _ _ _ (encode_length hd t' hf'.1)
          simp only [decodeFrom, encode, hdrop, ih_tl rest hf'.2 extra]
          rw [List.append_assoc]
          rw [ih_hd t' hf'.1 (encode tl ++ extra)]
      | prim s => simp [fitsB] at hf
      | raw w' => simp [fitsB] at hf
      | nilStruct => simp [fitsB] at hf

theorem decodeFrom_encode (t : FType) (v : FValue) (hf : fitsB t v = true) :
    decodeFrom t (encode v) = v := by
  have h := decodeFrom_encode_append v t hf []
  simpa using h

theorem lookupKey_mem : ∀ (l : List (HeaderKey × FType)) (k : HeaderKey)
    (t : FType), lookupKey l k = some t → (k, t) ∈ l := by
  intro l
  induction l with
  | nil => intro k t h; simp [lookupKey] at h
  | cons p rest ih =>
      intro k t h
      obtain ⟨pk, pt⟩ := p
      by_cases hk : pk = k
      · subst hk
        simp only [lookupKey, if_true, eq_self_iff_true, if_pos,
          Option.some.injEq] at h
        subst h
        exact List.mem_cons_self _ _
      · simp only [lookupKey, if_neg hk] at h
        exact List.mem_cons_of_mem _ (ih k t h)

/-- Every packet type registered in HeaderFieldsToPacketType is at least 40
bytes (the Event packet is smallest). -/
theorem table_size_ge (k : HeaderKey) (t : FType)
    (h : (k, t) ∈ HeaderFieldsToPacketType) : 40 ≤ t.byteSize := by
  simp only [HeaderFieldsToPacketType, List.mem_cons, List.mem_singleton,
    Prod.mk.injEq, List.not_mem_nil, or_false] at h
  rcases h with h|h|h|h|h|h|h|h|h|h|h|h <;> rw [h.2] <;> decide

/-- Telescope form of a decoded array value. -/
def arrOfList : List FValue → FValue
  | [] => .nil
  | v :: vs => .cons v (arrOfList vs)

theorem decodeArrAux_eq (f : List Nat → FValue) (step : Nat) :
    ∀ (n : Nat) (bs : List Nat),
    decodeArrAux f step n bs
      = arrOfList ((List.range n).map (fun i => f (bs.drop (i * step)))) := by
  intro n
  induction n with
  | zero => intro bs; rfl
  | succ n ih =>
      intro bs
      rw [List.range_succ_eq_map]
      simp only [List.map_cons, List.map_map, Function.comp]
      rw [show decodeArrAux f step (n + 1) bs
          = .cons (f bs) (decodeArrAux f step n (bs.drop step)) from rfl]
      rw [ih (bs.drop step)]
      simp only [arrOfList, Nat.zero_mul, List.drop_zero]
      congr 1
      congr 1
      apply List.map_congr_left
      intro i _
      simp only [Function.comp_apply]
      rw [List.drop_drop]
      congr 2
      simp only [Nat.succ_eq_add_one]
      ring

theorem PacketHeader_byteSize : PacketHeader.byteSize = 24 := rfl

theorem CarMotionData_byteSize : CarMotionData_V1.byteSize = 60 := rfl

/-! The claims. -/

/-- C2: for every input buffer strictly shorter than the header size
(lengths 0 through header_size - 1, the empty buffer included), decode fails
with the too-short error carrying the actual length, and never returns a
decoded record (the function is total, so no crash is possible). -/
theorem C2_too_short_for_header (packet : List Nat)
    (h : packet.length < PacketHeader.byteSize) :
    unpack_udp_packet packet = .error (.tooShort packet.length) := by
  simp [unpack_udp_packet, h]

/-- C2 witness: the empty buffer is rejected as too short. -/
theorem C2_too_short_for_header_witness :
    ([] : List Nat).length < PacketHeader.byteSize ∧
    unpack_udp_packet [] = .error (.tooShort 0) :=
  ⟨by decide, C2_too_short_for_header [] (by decide)⟩

/-- C3: for every input buffer of at least header size whose dispatch key is
absent from HeaderFieldsToPacketType, decode fails with the unknown-key error
carrying that key; no default shape is used. -/
theorem C3_unknown_packet_kind (packet : List Nat)
    (hlen : PacketHeader.byteSize ≤ packet.length)
    (hlk : lookupKey HeaderFieldsToPacketType (headerKey PacketHeader packet)
      = none) :
    unpack_udp_packet packet
      = .error (.noMatch (headerKey PacketHeader packet)) := by
  simp [unpack_udp_packet, Nat.not_lt.mpr hlen, hlk]

/-- C3 witness: a 24-byte all-zero buffer has the unregistered key (0, 0, 0)
and is rejected with that key. -/
theorem C3_unknown_packet_kind_witness :
    unpack_udp_packet (List.replicate 24 0) = .error (.noMatch (0, 0, 0)) :=
  C3_unknown_packet_kind (List.replicate 24 0) (by decide) (by decide)

/-- C1: for every buffer whose dispatch key is registered, a length different
from the registered exact byte size (off-by-one included) yields the
size-mismatch error carrying the expected and actual sizes, never a decoded
record; and the 41-byte buffer with key (2022, 1, 3) reports expected 40,
actual 41. -/
theorem C1_size_mismatch :
    (∀ (packet : List Nat) (packet_type : FType),
      PacketHeader.byteSize ≤ packet.length →
      lookupKey HeaderFieldsToPacketType (headerKey PacketHeader packet)
        = some packet_type →
      packet.length ≠ packet_type.byteSize →
      unpack_udp_packet packet
        = .error (.badSize packet_type.byteSize packet.length)) ∧
    unpack_udp_packet ([230, 7, 0, 0, 1, 3] ++ List.replicate 35 0)
      = .error (.badSize 40 41) := by
  constructor
  · intro packet packet_type hlen hlk hne
    simp [unpack_udp_packet, Nat.not_lt.mpr hlen, hlk, hne]
  · rfl

/-- C1 witness: the 41-byte buffer whose header encodes
(packetFormat = 2022, packetVersion = 1, packetId = 3). -/
theorem C1_size_mismatch_witness :
    unpack_udp_packet ([230, 7, 0, 0, 1, 3] ++ List.replicate 35 0)
      = .error (.badSize 40 41) :=
  C1_size_mismatch.1 ([230, 7, 0, 0, 1, 3] ++ List.replicate 35 0)
    PacketEventData_V1 (by decide) (by decide) (by decide)

/-- C6: a registered packet type's exact byte size is the padding-free sum of
its field widths (the definition of byteSize over the declared layouts), it
is content-independent (every well-formed record of the shape serializes to
exactly byteSize bytes), and the twelve generation-22 constants are the ones
asserted at the bottom of packets.py. -/
theorem C6_exact_sizes :
    (∀ p ∈ HeaderFieldsToPacketType, ∀ v : FValue,
      fitsB p.2 v = true → (encode v).length = p.2.byteSize) ∧
    PacketMotionData_V1.byteSize = 1464 ∧
    PacketSessionData_V1.byteSize = 632 ∧
    PacketLapData_V1.byteSize = 972 ∧
    PacketEventData_V1.byteSize = 40 ∧
    PacketParticipantsData_V1.byteSize = 1257 ∧
    PacketCarSetupData_V1.byteSize = 1102 ∧
    PacketCarTelemetryData_V1.byteSize = 1347 ∧
    PacketCarStatusData_V1.byteSize = 1058 ∧
    PacketFinalClassificationData_V1.byteSize = 1015 ∧
    PacketLobbyInfoData_V1.byteSize = 1191 ∧
    PacketCarDamageData_V1.byteSize = 948 ∧
    PacketSessionHistoryData_V1.byteSize = 1155 :=
  ⟨fun p _ v hf => encode_length v p.2 hf,
   rfl, rfl, rfl, rfl, rfl, rfl, rfl, rfl, rfl, rfl, rfl, rfl⟩

/-- C6 witness: the Event packet is registered, a concrete well-formed Event
record serializes to exactly 40 bytes. -/
theorem C6_exact_sizes_witness :
    (encode (decodeFrom PacketEventData_V1 (List.replicate 40 7))).length
      = PacketEventData_V1.byteSize :=
  C6_exact_sizes.1 ((2022, 1, 3), PacketEventData_V1) (by decide)
    (decodeFrom PacketEventData_V1 (List.replicate 40 7)) (by decide)

/-- C7: within the generation-22 dispatch table each key occurs exactly once,
and exact-match lookup of the key of any entry returns exactly that entry's
packet type; any two entries with the same key have the same type and hence
the same exact byte size (the table is a closed immutable term, and lookupKey
compares full keys only). -/
theorem C7_dispatch_table_unique :
    (HeaderFieldsToPacketType.map Prod.fst).Nodup ∧
    ∀ p ∈ HeaderFieldsToPacketType,
      lookupKey HeaderFieldsToPacketType p.1 = some p.2 ∧
      ∀ q ∈ HeaderFieldsToPacketType, q.1 = p.1 →
        q.2 = p.2 ∧ q.2.byteSize = p.2.byteSize := by
  constructor
  · decide
  · decide

/-- C7 witness: the Motion entry, looked up by its own key. -/
theorem C7_dispatch_table_unique_witness :
    lookupKey HeaderFieldsToPacketType (2022, 1, 0) = some PacketMotionData_V1 ∧
    ∀ q ∈ HeaderFieldsToPacketType, q.1 = ((2022, 1, 0) : HeaderKey) →
      q.2 = PacketMotionData_V1 ∧ q.2.byteSize = PacketMotionData_V1.byteSize :=
  C7_dispatch_table_unique.2 ((2022, 1, 0), PacketMotionData_V1) (by decide)

/-- C4: every 1464-byte buffer whose header encodes
(packetFormat = 2022, packetVersion = 1, packetId = 0) decodes successfully
(the decode step after the size checks is total and cannot fail), and the
carMotionData field of the result is the telescope of the 22 per-car
sub-records, each extracted at its fixed offset 24 + i * 60 in input
order. -/
theorem C4_motion_end_to_end (packet : List Nat)
    (hlen : packet.length = 1464)
    (hkey : headerKey PacketHeader packet = (2022, 1, 0)) :
    unpack_udp_packet packet = .ok (decodeFrom PacketMotionData_V1 packet) ∧
    getField PacketMotionData_V1 (decodeFrom PacketMotionData_V1 packet)
        "carMotionData"
      = some (arrOfList ((List.range 22).map
          (fun i => decodeFrom CarMotionData_V1 (packet.drop (24 + i * 60))))) := by
  constructor
  · have hnlt : ¬ packet.length < PacketHeader.byteSize := by
      rw [hlen]; decide
    have hlk : lookupKey HeaderFieldsToPacketType (headerKey PacketHeader packet)
        = some PacketMotionData_V1 := by rw [hkey]; rfl
    have hsz : ¬ packet.length ≠ PacketMotionData_V1.byteSize := by
      rw [hlen]; decide
    simp [unpack_udp_packet, hnlt, hlk, hsz]
  · have h1 : getField PacketMotionData_V1 (decodeFrom PacketMotionData_V1 packet)
        "carMotionData"
        = some (decodeFrom (.arr CarMotionData_V1 22) (packet.drop 24)) := by
      simp only [PacketMotionData_V1, mkStruct, decodeFrom, getField,
        PacketHeader_byteSize]
      simp
    rw [h1]
    have h2 : decodeFrom (.arr CarMotionData_V1 22) (packet.drop 24)
        = decodeArrAux (decodeFrom CarMotionData_V1) 60 22 (packet.drop 24) := by
      simp [decodeFrom, CarMotionData_byteSize]
    rw [h2, decodeArrAux_eq]
    congr 2
    apply List.map_congr_left
    intro i _
    rw [List.drop_drop]

set_option maxRecDepth 8000 in
/-- C4 witness: the all-zero-body 1464-byte Motion buffer. -/
theorem C4_motion_end_to_end_witness :
    unpack_udp_packet ([230, 7, 0, 0, 1, 0] ++ List.replicate 1458 0)
      = .ok (decodeFrom PacketMotionData_V1
          ([230, 7, 0, 0, 1, 0] ++ List.replicate 1458 0)) :=
  (C4_motion_end_to_end ([230, 7, 0, 0, 1, 0] ++ List.replicate 1458 0)
    (by decide) (by decide)).1

/-- C9: for every packet type registered in the dispatch table and every
well-formed record of that type, encoding to the exact-byte-size
little-endian representation and decoding back yields the original record
(FValue equality is structural, hence field-for-field). -/
theorem C9_encode_decode_roundtrip :
    ∀ p ∈ HeaderFieldsToPacketType, ∀ v : FValue,
      fitsB p.2 v = true → decodeFrom p.2 (encode v) = v :=
  fun p _ v hf => decodeFrom_encode p.2 v hf

set_option maxRecDepth 8000 in
/-- C9 witness: a concrete well-formed Event record round-trips. -/
theorem C9_encode_decode_roundtrip_witness :
    decodeFrom PacketEventData_V1
        (encode (decodeFrom PacketEventData_V1 (List.replicate 40 7)))
      = decodeFrom PacketEventData_V1 (List.replicate 40 7) :=
  C9_encode_decode_roundtrip ((2022, 1, 3), PacketEventData_V1) (by decide)
    (decodeFrom PacketEventData_V1 (List.replicate 40 7)) (by decide)

/-- C10: every registered packet type starts with the 24-byte PacketHeader as
its first field (offset 0), every registered size exceeds 24, the minimum is
the 40-byte Event packet, and a buffer of exactly header size never decodes
successfully: it fails with unknown-key or size-mismatch. -/
theorem C10_header_prefix_and_minimum :
    (∀ p ∈ HeaderFieldsToPacketType,
      (∃ rest, p.2 = FType.field "header" PacketHeader rest) ∧
      24 < p.2.byteSize ∧ 40 ≤ p.2.byteSize) ∧
    (∃ p ∈ HeaderFieldsToPacketType, p.2.byteSize = 40) ∧
    (∀ packet : List Nat, packet.length = PacketHeader.byteSize →
      (∃ k, unpack_udp_packet packet = .error (.noMatch k)) ∨
      (∃ e a, unpack_udp_packet packet = .error (.badSize e a))) := by
  refine ⟨?_, ⟨((2022, 1, 3), PacketEventData_V1), by decide, rfl⟩, ?_⟩
  · intro p hp
    simp only [HeaderFieldsToPacketType, List.mem_cons, List.not_mem_nil,
      or_false] at hp
    rcases hp with h|h|h|h|h|h|h|h|h|h|h|h <;> subst h <;>
      exact ⟨⟨_, rfl⟩, by decide, by decide⟩
  · intro packet hlen
    match hlk : lookupKey HeaderFieldsToPacketType
        (headerKey PacketHeader packet) with
    | none =>
        left
        exact ⟨headerKey PacketHeader packet,
          by simp [unpack_udp_packet, hlen, hlk]⟩
    | some pt =>
        right
        have hge := table_size_ge _ _ (lookupKey_mem _ _ _ hlk)
        have h24 : packet.length = 24 := by rw [hlen]; decide
        have hne : packet.length ≠ pt.byteSize := by omega
        have hnlt : ¬ packet.length < PacketHeader.byteSize := by
          rw [h24]; decide
        exact ⟨pt.byteSize, packet.length,
          by simp [unpack_udp_packet, hnlt, hlk, hne]⟩

/-- C10 witness: the 24-byte all-zero buffer fails with unknown-key or
size-mismatch. -/
theorem C10_header_prefix_and_minimum_witness :
    (∃ k, unpack_udp_packet (List.replicate 24 0) = .error (.noMatch k)) ∨
    (∃ e a, unpack_udp_packet (List.replicate 24 0) = .error (.badSize e a)) :=
  C10_header_prefix_and_minimum.2.2 (List.replicate 24 0) (by decide)

/-- C8: constructing a UDPUnpacker with a selector in the supported set
succeeds and binds that selector; any selector outside the set is rejected
immediately at construction (and likewise at reconfiguration through the
udp_spec setter), for every choice of generation-23 definitions. -/
theorem C8_schema_generation_domain (PacketHeader23 : FType)
    (HeaderFieldsToPacketType_23 : List (HeaderKey × FType))
    (udp_spec : String) :
    (udp_spec = "22" ∨ udp_spec = "23" →
      ∃ u, UDPUnpacker.init PacketHeader23 HeaderFieldsToPacketType_23 udp_spec
          = .ok u ∧ u._udp_spec = udp_spec) ∧
    (udp_spec ≠ "22" → udp_spec ≠ "23" →
      UDPUnpacker.init PacketHeader23 HeaderFieldsToPacketType_23 udp_spec
        = .error (.invalidSpec udp_spec)) ∧
    (∀ self : UDPUnpacker, udp_spec ≠ "22" → udp_spec ≠ "23" →
      self.set_udp_spec udp_spec = .error (.invalidSpec udp_spec)) := by
  refine ⟨?_, ?_, ?_⟩
  · rintro (h | h) <;> subst h
    · exact ⟨⟨"22", PacketHeader, HeaderFieldsToPacketType⟩, rfl, rfl⟩
    · exact ⟨⟨"23", PacketHeader23, HeaderFieldsToPacketType_23⟩, rfl, rfl⟩
  · intro h22 h23
    simp [UDPUnpacker.init, h22, h23]
  · intro self h22 h23
    simp [UDPUnpacker.set_udp_spec, h22, h23]

/-- C8 witness: selector "24" is rejected at construction, selector "22" is
accepted (with the generation-22 table standing in for the parameters). -/
theorem C8_schema_generation_domain_witness :
    (UDPUnpacker.init PacketHeader HeaderFieldsToPacketType "24"
      = .error (.invalidSpec "24")) ∧
    ∃ u, UDPUnpacker.init PacketHeader HeaderFieldsToPacketType "22"
        = .ok u ∧ u._udp_spec = "22" :=
  ⟨(C8_schema_generation_domain PacketHeader HeaderFieldsToPacketType "24").2.1
      (by decide) (by decide),
   (C8_schema_generation_domain PacketHeader HeaderFieldsToPacketType "22").1
      (Or.inl rfl)⟩

/-- C5: rebinding the generation selector from "22" to "23" through the
udp_spec setter does NOT swap the header model or the dispatch table: the
resulting unpacker reports selector "23" but still holds the generation-22
PacketHeader and HeaderFieldsToPacketType, and its decode behaves exactly as
the generation-22 module-level unpack_udp_packet, for every choice of
generation-23 definitions.  This refutes the claimed atomic swap (the source
setter, unpack_udp.py lines 29-34, assigns only `_udp_spec`). -/
theorem C5_rebinding_does_not_swap (PacketHeader23 : FType)
    (HeaderFieldsToPacketType_23 : List (HeaderKey × FType)) :
    ∃ u : UDPUnpacker,
      (UDPUnpacker.init PacketHeader23 HeaderFieldsToPacketType_23 "22").bind
          (fun s => s.set_udp_spec "23") = .ok u ∧
      u._udp_spec = "23" ∧
      u._PacketHeader = PacketHeader ∧
      u._HeaderFieldsToPacketType = HeaderFieldsToPacketType ∧
      ∀ packet : List Nat,
        u.unpack_udp_packet packet = unpack_udp_packet packet :=
  ⟨⟨"23", PacketHeader, HeaderFieldsToPacketType⟩,
   rfl, rfl, rfl, rfl, fun _ => rfl⟩

/-- C5 witness: a concrete generation-23 stand-in (29-byte raw header, empty
table) exhibits the unswapped state. -/
theorem C5_rebinding_does_not_swap_witness :
    ∃ u : UDPUnpacker,
      (UDPUnpacker.init (.raw 29) [] "22").bind
          (fun s => s.set_udp_spec "23") = .ok u ∧
      u._udp_spec = "23" ∧
      u._PacketHeader = PacketHeader ∧
      u._HeaderFieldsToPacketType = HeaderFieldsToPacketType ∧
      ∀ packet : List Nat,
        u.unpack_udp_packet packet = unpack_udp_packet packet :=
  C5_rebinding_does_not_swap (.raw 29) []

end F1Telemetry
